import Mathlib

/-!
Shallow embedding of the `tech-solutions` front-end core: the
`SolutionDetailComponent` (paginated feed controller for official comments,
user comments and ratings of one solution) and the `AuthInterceptor`
(conditional bearer-token attachment). Each definition mirrors one method or
handler of the source; asynchronous subscriptions are split into a
synchronous "call" phase (state update plus the list of issued network
requests) and a "deliver" phase (the `next`/`error` callback followed by the
`finalize` release of the loading flag).
-/

namespace Compass

/-- Toast payload passed to `messageService.add`. -/
structure Msg where
  severity : String
  summary : String
  detail : String
deriving DecidableEq

/-- The `type` query parameter of the comments endpoint. -/
inductive CommentType where
  | OFFICIAL
  | USER
deriving DecidableEq

/-- Items (comments, ratings, solutions) are opaque payloads from the API;
the embedding identifies them by a number. -/
abbrev Item := Nat

/-- One outgoing network request, as recorded by the embedding. -/
inductive Request where
  | getSolution (slug : String)
  | getComments (slug : String) (skip limit : Nat) (ctype : CommentType)
  | getRatings (slug : String) (skip limit : Nat)
  | postComment (slug : String) (content : String)
  | postRating (slug : String) (score : Nat) (comment : String)
deriving DecidableEq

/-- Response shape of the paginated list endpoints:
`{success, data, total}`. -/
structure ListResponse where
  success : Bool
  data : List Item
  total : Nat
deriving DecidableEq

/-- Response shape of `GET /solutions/{slug}`: `{success, data}`. -/
structure SolutionResponse where
  success : Bool
  data : Item
deriving DecidableEq

/-- Response shape of the two POST endpoints: `{success}`. -/
structure SubmitResponse where
  success : Bool
deriving DecidableEq

/-- The mutable fields of `SolutionDetailComponent` (part_000 lines 65-89).
`solution`, the three item lists and the scalar flags correspond to the
component's subjects and fields one for one. -/
structure ComponentState where
  userCommentsPage : Nat
  ratingsPage : Nat
  solution : Option Item
  officialComments : List Item
  userComments : List Item
  ratings : List Item
  loading : Bool
  loadingOfficialComments : Bool
  loadingUserComments : Bool
  loadingRatings : Bool
  hasMoreUserComments : Bool
  hasMoreRatings : Bool
  totalOfficialComments : Nat
  totalUserComments : Nat
  totalRatings : Nat
  activeTab : Nat
  newComment : String
  newRatingScore : Nat
  newRatingComment : String
  isLoggedIn : Bool
deriving DecidableEq

/-- Field initializers of the component (part_000 lines 65-89). -/
def initState : ComponentState where
  userCommentsPage := 0
  ratingsPage := 0
  solution := none
  officialComments := []
  userComments := []
  ratings := []
  loading := true
  loadingOfficialComments := false
  loadingUserComments := false
  loadingRatings := false
  hasMoreUserComments := true
  hasMoreRatings := true
  totalOfficialComments := 0
  totalUserComments := 0
  totalRatings := 0
  activeTab := 0
  newComment := ""
  newRatingScore := 0
  newRatingComment := ""
  isLoggedIn := false

/-- Synchronous part of `loadSolution` (part_000 lines 151-155): sets
`loading` and issues `GET /solutions/{slug}`. -/
def loadSolutionCall (st : ComponentState) (slug : String) :
    ComponentState × List Request :=
  ({ st with loading := true }, [Request.getSolution slug])

/-- Delivery of the solution response (part_000 lines 155-161): the `next`
handler stores `response.data` when `response.success`, then `finalize`
clears `loading`. -/
def deliverSolutionOk (st : ComponentState) (resp : SolutionResponse) :
    ComponentState :=
  let st := if resp.success then { st with solution := some resp.data } else st
  { st with loading := false }

/-- Delivery of a solution transport error (part_000 lines 162-168): one
toast, then `finalize` clears `loading`. -/
def deliverSolutionErr (st : ComponentState) : ComponentState × List Msg :=
  ({ st with loading := false },
   [Msg.mk "error" "Error" "Failed to load solution details"])

/-- Synchronous part of `loadComments` (part_000 lines 172-219): when
`loadMore` is false it resets the comment feeds (twice, as the source does),
then unconditionally issues the OFFICIAL request at offset 0 and the USER
request at `userCommentsPage * 10`, both with limit 10. There is no
`hasMore`/`isLoading` guard in this method. -/
def loadCommentsCall (st : ComponentState) (slug : String) (loadMore : Bool) :
    ComponentState × List Request :=
  let st := if !loadMore then
      { st with userCommentsPage := 0, officialComments := [], userComments := [] }
    else st
  let st := { st with loadingOfficialComments := true }
  let reqOfficial := Request.getComments slug 0 10 CommentType.OFFICIAL
  let st := if !loadMore then
      { st with userCommentsPage := 0, userComments := [] }
    else st
  let st := { st with loadingUserComments := true }
  let reqUser := Request.getComments slug (st.userCommentsPage * 10) 10 CommentType.USER
  (st, [reqOfficial, reqUser])

/-- Delivery of the OFFICIAL comments response (part_000 lines 183-195):
on `success` the list is replaced (not appended) and the total stored;
`finalize` clears the loading flag. -/
def deliverOfficialOk (st : ComponentState) (resp : ListResponse) :
    ComponentState :=
  let st := if resp.success then
      { st with officialComments := resp.data, totalOfficialComments := resp.total }
    else st
  { st with loadingOfficialComments := false }

/-- Delivery of an OFFICIAL comments transport error (part_000 lines
196-202). -/
def deliverOfficialErr (st : ComponentState) : ComponentState × List Msg :=
  ({ st with loadingOfficialComments := false },
   [Msg.mk "error" "Error" "Failed to load official comments"])

/-- Delivery of the USER comments response (part_000 lines 220-229): on
`success` the page is appended, `total` stored, `hasMoreUserComments`
recomputed and the page counter incremented; `finalize` clears the loading
flag. -/
def deliverUserOk (st : ComponentState) (resp : ListResponse) :
    ComponentState :=
  let st := if resp.success then
      { st with
          userComments := st.userComments ++ resp.data,
          totalUserComments := resp.total,
          hasMoreUserComments :=
            decide (st.userComments.length + resp.data.length < resp.total),
          userCommentsPage := st.userCommentsPage + 1 }
    else st
  { st with loadingUserComments := false }

/-- Delivery of a USER comments transport error (part_000 lines 230-236). -/
def deliverUserErr (st : ComponentState) : ComponentState × List Msg :=
  ({ st with loadingUserComments := false },
   [Msg.mk "error" "Error" "Failed to load user comments"])

/-- `loadRatings` synchronous part (part_000 lines 240-255): when `loadMore`
is false the ratings feed is reset (including `hasMoreRatings := true`);
then the guard returns early when `!hasMoreRatings || loadingRatings`;
otherwise the loading flag is set and the request issued at
`ratingsPage * 10`. -/
def loadRatingsCall (st : ComponentState) (slug : String) (loadMore : Bool) :
    ComponentState × List Request :=
  let st := if !loadMore then
      { st with ratingsPage := 0, ratings := [], hasMoreRatings := true }
    else st
  if !st.hasMoreRatings || st.loadingRatings then (st, [])
  else
    let st := { st with loadingRatings := true }
    let skip := st.ratingsPage * 10
    (st, [Request.getRatings slug skip 10])

/-- Delivery of the ratings response (part_000 lines 257-266): mirror of the
USER comments handler. -/
def deliverRatingsOk (st : ComponentState) (resp : ListResponse) :
    ComponentState :=
  let st := if resp.success then
      { st with
          ratings := st.ratings ++ resp.data,
          totalRatings := resp.total,
          hasMoreRatings :=
            decide (st.ratings.length + resp.data.length < resp.total),
          ratingsPage := st.ratingsPage + 1 }
    else st
  { st with loadingRatings := false }

/-- Delivery of a ratings transport error (part_000 lines 268-274). -/
def deliverRatingsErr (st : ComponentState) : ComponentState × List Msg :=
  ({ st with loadingRatings := false },
   [Msg.mk "error" "Error" "Failed to load ratings"])

/-- Characters removed by JavaScript `String.prototype.trim` that can occur
in plain text: space, tab, newline, carriage return, vertical tab, form
feed. -/
def isJsSpace (c : Char) : Bool :=
  c == ' ' || c == '\t' || c == '\n' || c == '\r' ||
    c == Char.ofNat 11 || c == Char.ofNat 12

/-- JavaScript `String.prototype.trim`: drop whitespace from both ends. -/
def jsTrim (s : String) : String :=
  String.mk (((s.data.dropWhile isJsSpace).reverse.dropWhile isJsSpace).reverse)

/-- Synchronous part of `submitComment` (part_000 lines 278-281):
`if (!this.newComment.trim()) return;` then the POST is issued. -/
def submitCommentCall (st : ComponentState) (slug : String) :
    ComponentState × List Request :=
  if jsTrim st.newComment == "" then (st, [])
  else (st, [Request.postComment slug st.newComment])

/-- `next` handler of `submitComment` (part_000 lines 282-292): on
`success` a success toast, the compose field is cleared and
`loadComments(slug)` re-runs; otherwise nothing happens. -/
def submitCommentOk (st : ComponentState) (slug : String) (resp : SubmitResponse) :
    ComponentState × List Request × List Msg :=
  if resp.success then
    let st := { st with newComment := "" }
    let res := loadCommentsCall st slug false
    (res.1, res.2, [Msg.mk "success" "Success" "Comment added successfully"])
  else (st, [], [])

/-- `error` handler of `submitComment` (part_000 lines 293-303): status 401
opens the login dialog (the boolean component of the result), anything else
shows the generic toast. -/
def submitCommentErr (st : ComponentState) (status : Nat) :
    ComponentState × List Msg × Bool :=
  if status == 401 then (st, [], true)
  else (st, [Msg.mk "error" "Error" "Failed to add comment"], false)

/-- Synchronous part of `submitRating` (part_000 lines 307-327): warning
and abort when not logged in, warning and abort when the score is 0,
otherwise the POST is issued. -/
def submitRatingCall (st : ComponentState) (slug : String) :
    ComponentState × List Request × List Msg :=
  if !st.isLoggedIn then
    (st, [], [Msg.mk "warn" "Warning" "Please login to submit a rating"])
  else if st.newRatingScore == 0 then
    (st, [], [Msg.mk "warn" "Warning" "Please select a rating score"])
  else
    (st, [Request.postRating slug st.newRatingScore st.newRatingComment], [])

/-- `next` handler of `submitRating` (part_000 lines 329-340): on `success`
a success toast, the compose fields reset, then `loadRatings(slug)` and
`loadSolution(slug)`; otherwise nothing happens. -/
def submitRatingOk (st : ComponentState) (slug : String) (resp : SubmitResponse) :
    ComponentState × List Request × List Msg :=
  if resp.success then
    let st := { st with newRatingScore := 0, newRatingComment := "" }
    let r1 := loadRatingsCall st slug false
    let r2 := loadSolutionCall r1.1 slug
    (r2.1, r1.2 ++ r2.2, [Msg.mk "success" "Success" "Rating submitted successfully"])
  else (st, [], [])

/-- `error` handler of `submitRating` (part_000 lines 341-347): toast with
the server-supplied detail when present. -/
def submitRatingErr (st : ComponentState) (detail : Option String) :
    ComponentState × List Msg :=
  (st, [Msg.mk "error" "Error" (detail.getD "Failed to submit rating")])

/-- The reset entry point: on a slug change `ngOnInit` runs `loadComments`
and `loadRatings` with `loadMore = false` (part_000 lines 101-107; the
solution fetch is a separate concern). -/
def resetAndLoadAll (st : ComponentState) (slug : String) :
    ComponentState × List Request :=
  let c := loadCommentsCall st slug false
  let r := loadRatingsCall c.1 slug false
  (r.1, c.2 ++ r.2)

/-- One in-flight callback that may fire, with its payload. -/
inductive Delivery where
  | solutionOk (resp : SolutionResponse)
  | solutionErr
  | officialOk (resp : ListResponse)
  | officialErr
  | userOk (resp : ListResponse)
  | userErr
  | ratingsOk (resp : ListResponse)
  | ratingsErr
  | commentOk (slug : String) (resp : SubmitResponse)
  | commentErr (status : Nat)
  | ratingOk (slug : String) (resp : SubmitResponse)
  | ratingErr (detail : Option String)
deriving DecidableEq

/-- Running one delivery against a live component: the pair of follow-up
requests and toasts it produces, next to the new state. The login-dialog
boolean of the comment error handler is dropped here; the 401 branch shows
no toast. -/
def deliver (st : ComponentState) (d : Delivery) :
    ComponentState × List Request × List Msg :=
  match d with
  | Delivery.solutionOk r => (deliverSolutionOk st r, [], [])
  | Delivery.solutionErr =>
      let p := deliverSolutionErr st
      (p.1, [], p.2)
  | Delivery.officialOk r => (deliverOfficialOk st r, [], [])
  | Delivery.officialErr =>
      let p := deliverOfficialErr st
      (p.1, [], p.2)
  | Delivery.userOk r => (deliverUserOk st r, [], [])
  | Delivery.userErr =>
      let p := deliverUserErr st
      (p.1, [], p.2)
  | Delivery.ratingsOk r => (deliverRatingsOk st r, [], [])
  | Delivery.ratingsErr =>
      let p := deliverRatingsErr st
      (p.1, [], p.2)
  | Delivery.commentOk slug r => submitCommentOk st slug r
  | Delivery.commentErr status =>
      let p := submitCommentErr st status
      (p.1, [], p.2.1)
  | Delivery.ratingOk slug r => submitRatingOk st slug r
  | Delivery.ratingErr detail =>
      let p := submitRatingErr st detail
      (p.1, [], p.2)

/-- Whether the subscription behind a delivery is piped through
`takeUntil(this.destroy$)` in the source: only the two comment-feed
subscriptions are (part_000 lines 187 and 218). The solution fetch (lines
153-156), the ratings fetch (lines 254-257) and both submissions (lines 281
and 326-328) subscribe without the teardown signal. -/
def guardedByDestroy : Delivery → Bool
  | Delivery.officialOk _ => true
  | Delivery.officialErr => true
  | Delivery.userOk _ => true
  | Delivery.userErr => true
  | _ => false

/-- Delivering a callback after `ngOnDestroy` has fired `destroy$` (part_000
lines 114-117): subscriptions piped through `takeUntil(destroy$)` are
already unsubscribed, so their callbacks never run; every other callback
runs exactly as on a live component. -/
def deliverAfterDestroy (st : ComponentState) (d : Delivery) :
    ComponentState × List Request × List Msg :=
  if guardedByDestroy d then (st, [], []) else deliver st d

/-- An outgoing HTTP request as the interceptor sees it; only the
`Authorization` header is relevant, the rest of the request is untouched by
the interceptor. -/
structure HttpRequest where
  url : String
  method : String
  authorization : Option String
deriving DecidableEq

/-- ASCII lower-casing of one character (`String.prototype.toLowerCase` on
the method names in play). -/
def lowerChar (c : Char) : Char :=
  if 65 ≤ c.toNat && c.toNat ≤ 90 then Char.ofNat (c.toNat + 32) else c

/-- ASCII lower-casing of a string. -/
def lowerStr (s : String) : String := String.mk (s.data.map lowerChar)

/-- Whether the second list is an initial segment of the first. -/
def startsWithChars : List Char → List Char → Bool
  | _, [] => true
  | [], _ :: _ => false
  | a :: as, b :: bs => a == b && startsWithChars as bs

/-- Whether `needle` occurs contiguously inside `hay`
(JavaScript `String.prototype.includes`). -/
def hasSubstring (hay needle : List Char) : Bool :=
  startsWithChars hay needle ||
    match hay with
    | [] => false
    | _ :: t => hasSubstring t needle

/-- `url.startsWith(base)` on strings. -/
def strStartsWith (s p : String) : Bool := startsWithChars s.data p.data

/-- `url.includes(sub)` on strings. -/
def strHasSubstring (s sub : String) : Bool := hasSubstring s.data sub.data

/-- `shouldAddToken` of `AuthInterceptor` (auth.interceptor.ts lines 41-59):
true for the exact `/users/me` URL or any URL containing `/solutions/my/`;
else true for POST/PUT (lower-cased method) under the API base; else
false. -/
def shouldAddToken (apiUrl : String) (req : HttpRequest) : Bool :=
  let url := req.url
  let m := lowerStr req.method
  if url == apiUrl ++ "/users/me" || strHasSubstring url "/solutions/my/" then
    true
  else if strStartsWith url apiUrl && (m == "post" || m == "put") then
    true
  else
    false

/-- `intercept` of `AuthInterceptor` (auth.interceptor.ts lines 18-35): when
`shouldAddToken` holds and a token is stored, the request is cloned with the
bearer header; otherwise it is forwarded unmodified. -/
def intercept (apiUrl : String) (token : Option String) (req : HttpRequest) :
    HttpRequest :=
  if shouldAddToken apiUrl req then
    match token with
    | some t => { req with authorization := some ("Bearer " ++ t) }
    | none => req
  else req

/-- The attachment condition exactly as the claim words it (second
definition, for comparison with `shouldAddToken`): the URL exactly equals
`{apiBase}/users/me`, or contains `/solutions/my/`, or starts with
`{apiBase}` with method POST or PUT compared case-insensitively. -/
def specShouldAttach (apiUrl : String) (req : HttpRequest) : Bool :=
  req.url == apiUrl ++ "/users/me" ||
    strHasSubstring req.url "/solutions/my/" ||
    (strStartsWith req.url apiUrl &&
      (lowerStr req.method == "post" || lowerStr req.method == "put"))



/-- The interceptor's routing predicate coincides with the claim's
three-way disjunction. -/
theorem shouldAddToken_eq_spec (apiUrl : String) (req : HttpRequest) :
    shouldAddToken apiUrl req = specShouldAttach apiUrl req := by
  unfold shouldAddToken specShouldAttach
  cases ha : (req.url == apiUrl ++ "/users/me") <;>
    cases hb : strHasSubstring req.url "/solutions/my/" <;>
      cases hc : strStartsWith req.url apiUrl <;>
        cases hd : (lowerStr req.method == "post") <;>
          cases he : (lowerStr req.method == "put") <;>
            simp [ha, hb, hc, hd, he]

/-- A string all of whose characters are JavaScript whitespace trims to the
empty string. -/
theorem jsTrim_of_all_space (s : String) (h : s.data.all isJsSpace = true) :
    jsTrim s = "" := by
  unfold jsTrim
  have h1 : s.data.dropWhile isJsSpace = [] :=
    List.dropWhile_eq_nil_iff.mpr (by simpa [List.all_eq_true] using h)
  simp [h1]

/-- Claim C3: the bearer header is attached if and only if a token is stored
and the URL exactly equals `{apiBase}/users/me`, or contains
`/solutions/my/`, or starts with `{apiBase}` with method POST or PUT
(case-insensitively); in every other case the request is forwarded
unmodified. -/
theorem c3_auth_header_rule (apiUrl : String) (token : Option String)
    (req : HttpRequest) :
    intercept apiUrl token req =
      match token with
      | some t =>
          if specShouldAttach apiUrl req then
            { req with authorization := some ("Bearer " ++ t) }
          else req
      | none => req := by
  unfold intercept
  rw [shouldAddToken_eq_spec]
  cases token with
  | none => cases h : specShouldAttach apiUrl req <;> simp [h]
  | some t => cases h : specShouldAttach apiUrl req <;> simp [h]

/-- Claim C8: on comment-submission failure, status 401 opens the login
dialog and shows no toast; any other status shows the generic error toast
and does not open the dialog. The component state is untouched either
way. -/
theorem c8_comment_error_branches (st : ComponentState) (status : Nat) :
    (status = 401 → submitCommentErr st status = (st, [], true)) ∧
    (status ≠ 401 → submitCommentErr st status =
      (st, [Msg.mk "error" "Error" "Failed to add comment"], false)) := by
  constructor <;> intro h <;> simp [submitCommentErr, h]

/-- Witness for C8 at the concrete statuses 401 and 500. -/
theorem c8_witness :
    submitCommentErr initState 401 = (initState, [], true) ∧
    submitCommentErr initState 500 =
      (initState, [Msg.mk "error" "Error" "Failed to add comment"], false) :=
  ⟨(c8_comment_error_branches initState 401).1 rfl,
   (c8_comment_error_branches initState 500).2 (by decide)⟩

/-- Claim C9: validation failures short-circuit before any request is
issued: `submitComment` with empty or whitespace-only text issues zero
requests; `submitRating` with the user not authenticated, or with score 0,
issues zero requests and produces exactly one warning toast. -/
theorem c9_validation_short_circuit (st : ComponentState) (slug : String) :
    (st.newComment.data.all isJsSpace = true →
      submitCommentCall st slug = (st, [])) ∧
    (st.isLoggedIn = false →
      submitRatingCall st slug =
        (st, [], [Msg.mk "warn" "Warning" "Please login to submit a rating"])) ∧
    (st.isLoggedIn = true → st.newRatingScore = 0 →
      submitRatingCall st slug =
        (st, [], [Msg.mk "warn" "Warning" "Please select a rating score"])) := by
  refine ⟨?_, ?_, ?_⟩
  · intro h
    simp [submitCommentCall, jsTrim_of_all_space st.newComment h]
  · intro h
    simp [submitRatingCall, h]
  · intro h1 h2
    simp [submitRatingCall, h1, h2]

/-- Witness for C9: whitespace-only comment, logged-out rating and
zero-score rating at concrete states. -/
theorem c9_witness :
    submitCommentCall { initState with newComment := "   " } "s" =
      ({ initState with newComment := "   " }, []) ∧
    submitRatingCall initState "s" =
      (initState, [], [Msg.mk "warn" "Warning" "Please login to submit a rating"]) ∧
    submitRatingCall { initState with isLoggedIn := true } "s" =
      ({ initState with isLoggedIn := true }, [],
       [Msg.mk "warn" "Warning" "Please select a rating score"]) :=
  ⟨(c9_validation_short_circuit { initState with newComment := "   " } "s").1 (by decide),
   (c9_validation_short_circuit initState "s").2.1 rfl,
   (c9_validation_short_circuit { initState with isLoggedIn := true } "s").2.2 rfl rfl⟩

/-- Claim C10: a response that arrives with `success = false` changes
nothing and shows nothing: each fetch handler merely releases its loading
flag, and each submission handler does nothing at all — no toast, no
follow-up request, no state change. -/
theorem c10_unsuccessful_response_is_silent :
    (∀ (st : ComponentState) (r : SolutionResponse), r.success = false →
      deliverSolutionOk st r = { st with loading := false }) ∧
    (∀ (st : ComponentState) (r : ListResponse), r.success = false →
      deliverOfficialOk st r = { st with loadingOfficialComments := false }) ∧
    (∀ (st : ComponentState) (r : ListResponse), r.success = false →
      deliverUserOk st r = { st with loadingUserComments := false }) ∧
    (∀ (st : ComponentState) (r : ListResponse), r.success = false →
      deliverRatingsOk st r = { st with loadingRatings := false }) ∧
    (∀ (st : ComponentState) (slug : String) (r : SubmitResponse),
      r.success = false → submitCommentOk st slug r = (st, [], [])) ∧
    (∀ (st : ComponentState) (slug : String) (r : SubmitResponse),
      r.success = false → submitRatingOk st slug r = (st, [], [])) := by
  refine ⟨?_, ?_, ?_, ?_, ?_, ?_⟩
  · intro st r h
    simp [deliverSolutionOk, h]
  · intro st r h
    simp [deliverOfficialOk, h]
  · intro st r h
    simp [deliverUserOk, h]
  · intro st r h
    simp [deliverRatingsOk, h]
  · intro st slug r h
    simp [submitCommentOk, h]
  · intro st slug r h
    simp [submitRatingOk, h]

/-- Witness for C10 at concrete unsuccessful responses. -/
theorem c10_witness :
    deliverSolutionOk initState ⟨false, 5⟩ = { initState with loading := false } ∧
    deliverOfficialOk initState ⟨false, [5], 9⟩ =
      { initState with loadingOfficialComments := false } ∧
    deliverUserOk initState ⟨false, [5], 9⟩ =
      { initState with loadingUserComments := false } ∧
    deliverRatingsOk initState ⟨false, [5], 9⟩ =
      { initState with loadingRatings := false } ∧
    submitCommentOk initState "s" ⟨false⟩ = (initState, [], []) ∧
    submitRatingOk initState "s" ⟨false⟩ = (initState, [], []) :=
  ⟨c10_unsuccessful_response_is_silent.1 initState ⟨false, 5⟩ rfl,
   c10_unsuccessful_response_is_silent.2.1 initState ⟨false, [5], 9⟩ rfl,
   c10_unsuccessful_response_is_silent.2.2.1 initState ⟨false, [5], 9⟩ rfl,
   c10_unsuccessful_response_is_silent.2.2.2.1 initState ⟨false, [5], 9⟩ rfl,
   c10_unsuccessful_response_is_silent.2.2.2.2.1 initState "s" ⟨false⟩ rfl,
   c10_unsuccessful_response_is_silent.2.2.2.2.2 initState "s" ⟨false⟩ rfl⟩

/-- Claim C1 counterexample: with `hasMoreUserComments = false` the
comments load-more call still issues its two requests and changes the
loading flags, so the claimed guard does not exist for the comment
feeds. -/
theorem c1_counterexample :
    ¬ ((loadCommentsCall { initState with hasMoreUserComments := false } "s" true).2 = [] ∧
       (loadCommentsCall { initState with hasMoreUserComments := false } "s" true).1 =
         { initState with hasMoreUserComments := false }) := by
  decide

/-- Claim C1 (amended): only the ratings feed has the exhaustion/in-flight
guard: `loadRatings` with `loadMore = true` is a pure no-op when
`hasMoreRatings` is false or `loadingRatings` is true, while the comments
load-more call issues its OFFICIAL and USER requests unconditionally, even
when the user-comments feed is exhausted or already loading. -/
theorem c1_loadMore_guard (st : ComponentState) (slug : String)
    (hr : st.hasMoreRatings = false ∨ st.loadingRatings = true)
    (_hc : st.hasMoreUserComments = false ∨ st.loadingUserComments = true) :
    loadRatingsCall st slug true = (st, []) ∧
    (loadCommentsCall st slug true).2 =
      [Request.getComments slug 0 10 CommentType.OFFICIAL,
       Request.getComments slug (st.userCommentsPage * 10) 10 CommentType.USER] := by
  constructor
  · rcases hr with h | h <;> simp [loadRatingsCall, h]
  · simp [loadCommentsCall]

/-- Witness for C1 at a state with both feeds exhausted. -/
theorem c1_witness :
    loadRatingsCall
        { initState with hasMoreRatings := false, hasMoreUserComments := false } "s" true =
      ({ initState with hasMoreRatings := false, hasMoreUserComments := false }, []) ∧
    (loadCommentsCall
        { initState with hasMoreRatings := false, hasMoreUserComments := false } "s" true).2 =
      [Request.getComments "s" 0 10 CommentType.OFFICIAL,
       Request.getComments "s" 0 10 CommentType.USER] :=
  c1_loadMore_guard
    { initState with hasMoreRatings := false, hasMoreUserComments := false } "s"
    (Or.inl rfl) (Or.inl rfl)

/-- Claim C2 counterexample: when the user-comments feed was exhausted, the
reset entry point leaves `hasMoreUserComments` at false instead of setting
it to true. -/
theorem c2_counterexample :
    (resetAndLoadAll { initState with hasMoreUserComments := false } "s").1.hasMoreUserComments
      ≠ true := by
  decide

/-- Claim C2 (amended): the reset entry point empties all three item lists,
zeroes both page counters and sets `hasMoreRatings := true`, but it leaves
`hasMoreUserComments` unchanged; the new initial fetches all go out at
offset 0 (the ratings fetch is skipped while a ratings fetch is still in
flight). -/
theorem c2_reset_state (st : ComponentState) (slug : String) :
    ((resetAndLoadAll st slug).1.officialComments = [] ∧
     (resetAndLoadAll st slug).1.userComments = [] ∧
     (resetAndLoadAll st slug).1.ratings = [] ∧
     (resetAndLoadAll st slug).1.userCommentsPage = 0 ∧
     (resetAndLoadAll st slug).1.ratingsPage = 0 ∧
     (resetAndLoadAll st slug).1.hasMoreRatings = true ∧
     (resetAndLoadAll st slug).1.hasMoreUserComments = st.hasMoreUserComments) ∧
    (resetAndLoadAll st slug).2 =
      [Request.getComments slug 0 10 CommentType.OFFICIAL,
       Request.getComments slug 0 10 CommentType.USER] ++
        (if st.loadingRatings then [] else [Request.getRatings slug 0 10]) := by
  cases h : st.loadingRatings <;>
    simp [resetAndLoadAll, loadCommentsCall, loadRatingsCall, h]

/-- First page of the 25-item scenario: items 0-9, `total = 25`. -/
def pageA : ListResponse := ⟨true, List.range 10, 25⟩

/-- Second page of the 25-item scenario: items 10-19, `total = 25`. -/
def pageB : ListResponse := ⟨true, (List.range 10).map (fun n => n + 10), 25⟩

/-- Third page of the 25-item scenario: items 20-24, `total = 25`. -/
def pageC : ListResponse := ⟨true, (List.range 5).map (fun n => n + 20), 25⟩

/-- User-comments feed after the initial load of the 25-item scenario. -/
def userTrace1 : ComponentState :=
  deliverUserOk (loadCommentsCall initState "s" false).1 pageA

/-- User-comments feed after the first load-more of the scenario. -/
def userTrace2 : ComponentState :=
  deliverUserOk (loadCommentsCall userTrace1 "s" true).1 pageB

/-- User-comments feed after the second load-more of the scenario. -/
def userTrace3 : ComponentState :=
  deliverUserOk (loadCommentsCall userTrace2 "s" true).1 pageC

/-- Ratings feed after the initial load of the 25-item scenario. -/
def ratingsTrace1 : ComponentState :=
  deliverRatingsOk (loadRatingsCall initState "s" false).1 pageA

/-- Ratings feed after the first load-more of the scenario. -/
def ratingsTrace2 : ComponentState :=
  deliverRatingsOk (loadRatingsCall ratingsTrace1 "s" true).1 pageB

/-- Ratings feed after the second load-more of the scenario. -/
def ratingsTrace3 : ComponentState :=
  deliverRatingsOk (loadRatingsCall ratingsTrace2 "s" true).1 pageC

/-- Claim C4: after every successful page fetch of the user-comments or
ratings feed, `hasMore` equals `items.length < totalCount`, and
`items.length ≤ totalCount` whenever the response is consistent with its
own total (the page does not overshoot it); and the concrete 25-item,
page-size-10 scenario yields item counts 10, 20, 25 with `hasMore` true,
true, false, the two load-more fetches going out at offsets 10 and 20. -/
theorem c4_hasMore_invariant :
    (∀ (st : ComponentState) (resp : ListResponse), resp.success = true →
      (deliverUserOk st resp).hasMoreUserComments =
        decide ((deliverUserOk st resp).userComments.length <
          (deliverUserOk st resp).totalUserComments)) ∧
    (∀ (st : ComponentState) (resp : ListResponse), resp.success = true →
      st.userComments.length + resp.data.length ≤ resp.total →
      (deliverUserOk st resp).userComments.length ≤
        (deliverUserOk st resp).totalUserComments) ∧
    (∀ (st : ComponentState) (resp : ListResponse), resp.success = true →
      (deliverRatingsOk st resp).hasMoreRatings =
        decide ((deliverRatingsOk st resp).ratings.length <
          (deliverRatingsOk st resp).totalRatings)) ∧
    (∀ (st : ComponentState) (resp : ListResponse), resp.success = true →
      st.ratings.length + resp.data.length ≤ resp.total →
      (deliverRatingsOk st resp).ratings.length ≤
        (deliverRatingsOk st resp).totalRatings) ∧
    (userTrace1.userComments.length = 10 ∧ userTrace1.hasMoreUserComments = true ∧
     userTrace2.userComments.length = 20 ∧ userTrace2.hasMoreUserComments = true ∧
     userTrace3.userComments.length = 25 ∧ userTrace3.hasMoreUserComments = false) ∧
    (ratingsTrace1.ratings.length = 10 ∧ ratingsTrace1.hasMoreRatings = true ∧
     ratingsTrace2.ratings.length = 20 ∧ ratingsTrace2.hasMoreRatings = true ∧
     ratingsTrace3.ratings.length = 25 ∧ ratingsTrace3.hasMoreRatings = false ∧
     (loadRatingsCall ratingsTrace1 "s" true).2 = [Request.getRatings "s" 10 10] ∧
     (loadRatingsCall ratingsTrace2 "s" true).2 = [Request.getRatings "s" 20 10]) := by
  refine ⟨?_, ?_, ?_, ?_, ?_, ?_⟩
  · intro st resp h
    simp [deliverUserOk, h, List.length_append]
  · intro st resp h h2
    simp only [deliverUserOk, h, if_true]
    simpa [List.length_append] using h2
  · intro st resp h
    simp [deliverRatingsOk, h, List.length_append]
  · intro st resp h h2
    simp only [deliverRatingsOk, h, if_true]
    simpa [List.length_append] using h2
  · decide
  · decide

/-- Witness for C4 at the first scenario page. -/
theorem c4_witness :
    (deliverUserOk initState pageA).hasMoreUserComments =
      decide ((deliverUserOk initState pageA).userComments.length <
        (deliverUserOk initState pageA).totalUserComments) ∧
    (deliverUserOk initState pageA).userComments.length ≤
      (deliverUserOk initState pageA).totalUserComments ∧
    (deliverRatingsOk initState pageA).hasMoreRatings =
      decide ((deliverRatingsOk initState pageA).ratings.length <
        (deliverRatingsOk initState pageA).totalRatings) ∧
    (deliverRatingsOk initState pageA).ratings.length ≤
      (deliverRatingsOk initState pageA).totalRatings :=
  ⟨c4_hasMore_invariant.1 initState pageA rfl,
   c4_hasMore_invariant.2.1 initState pageA rfl (by decide),
   c4_hasMore_invariant.2.2.1 initState pageA rfl,
   c4_hasMore_invariant.2.2.2.1 initState pageA rfl (by decide)⟩

/-- Whether a request targets the OFFICIAL comments endpoint. -/
def isOfficialReq : Request → Bool
  | Request.getComments _ _ _ CommentType.OFFICIAL => true
  | _ => false

/-- Claim C5 counterexample: after a completed first load of the official
comments (3 items, total 3), a further load-more call issues another
official-comments request, so the feed is not fetched only once per
reset. -/
theorem c5_counterexample :
    ((loadCommentsCall
        (deliverOfficialOk (loadCommentsCall initState "s" false).1 ⟨true, [1, 2, 3], 3⟩)
        "s" true).2.filter isOfficialReq) ≠ [] := by
  decide

/-- Claim C5 (amended): every invocation of `loadComments` — initial or
load-more — issues exactly one official-comments request, always at offset
0 with limit 10; hence no page beyond the first is ever requested for the
official feed, but the first page is re-fetched on every call, including
load-more calls. -/
theorem c5_official_single_page (st : ComponentState) (slug : String)
    (loadMore : Bool) :
    ((loadCommentsCall st slug loadMore).2.filter isOfficialReq) =
      [Request.getComments slug 0 10 CommentType.OFFICIAL] := by
  cases loadMore <;> simp [loadCommentsCall, isOfficialReq]

/-- Claim C6 counterexample: not every in-flight callback is silenced by
teardown — a ratings response delivered after `ngOnDestroy` still mutates
the discarded state. -/
theorem c6_counterexample :
    ¬ (∀ (st : ComponentState) (d : Delivery),
        (deliverAfterDestroy st d).1 = st) := by
  intro h
  exact absurd (h initState (Delivery.ratingsOk ⟨true, [7], 1⟩)) (by decide)

/-- Claim C6 (amended): the teardown signal unsubscribes only the two
comment-feed fetches, whose callbacks then leave the discarded state
untouched; the solution fetch, the ratings fetch and both submissions are
not piped through `takeUntil(destroy$)`, so their callbacks run after
teardown exactly as on a live component and can mutate the discarded
state. -/
theorem c6_destroy_guard (st : ComponentState) :
    (∀ resp : ListResponse,
      deliverAfterDestroy st (Delivery.officialOk resp) = (st, [], []) ∧
      deliverAfterDestroy st (Delivery.userOk resp) = (st, [], [])) ∧
    deliverAfterDestroy st Delivery.officialErr = (st, [], []) ∧
    deliverAfterDestroy st Delivery.userErr = (st, [], []) ∧
    (∀ d : Delivery, guardedByDestroy d = false →
      deliverAfterDestroy st d = deliver st d) ∧
    (deliverAfterDestroy initState (Delivery.ratingsOk ⟨true, [7], 1⟩)).1 ≠ initState := by
  refine ⟨?_, ?_, ?_, ?_, ?_⟩
  · intro resp
    constructor <;> simp [deliverAfterDestroy, guardedByDestroy]
  · simp [deliverAfterDestroy, guardedByDestroy]
  · simp [deliverAfterDestroy, guardedByDestroy]
  · intro d h
    simp [deliverAfterDestroy, h]
  · decide

/-- Witness for C6: a concrete unguarded delivery behaves as on a live
component. -/
theorem c6_witness :
    deliverAfterDestroy initState (Delivery.ratingsOk ⟨true, [7], 1⟩) =
      deliver initState (Delivery.ratingsOk ⟨true, [7], 1⟩) :=
  (c6_destroy_guard initState).2.2.2.1 (Delivery.ratingsOk ⟨true, [7], 1⟩) rfl

/-- Claim C7: a failed page fetch leaves the feed's items, page counter,
`hasMore` flag and total unchanged and produces exactly the one error
toast; consequently a retry via the load-more path fetches the very same
page (same skip), for the ratings feed as well as for the comment feeds. -/
theorem c7_error_leaves_feed_unchanged (st : ComponentState) (slug : String)
    (hm : st.hasMoreRatings = true) :
    ((deliverOfficialErr st).1.officialComments = st.officialComments ∧
     (deliverOfficialErr st).1.totalOfficialComments = st.totalOfficialComments ∧
     (deliverOfficialErr st).2 =
       [Msg.mk "error" "Error" "Failed to load official comments"]) ∧
    ((deliverUserErr st).1.userComments = st.userComments ∧
     (deliverUserErr st).1.userCommentsPage = st.userCommentsPage ∧
     (deliverUserErr st).1.hasMoreUserComments = st.hasMoreUserComments ∧
     (deliverUserErr st).1.totalUserComments = st.totalUserComments ∧
     (deliverUserErr st).2 =
       [Msg.mk "error" "Error" "Failed to load user comments"]) ∧
    ((deliverRatingsErr st).1.ratings = st.ratings ∧
     (deliverRatingsErr st).1.ratingsPage = st.ratingsPage ∧
     (deliverRatingsErr st).1.hasMoreRatings = st.hasMoreRatings ∧
     (deliverRatingsErr st).1.totalRatings = st.totalRatings ∧
     (deliverRatingsErr st).2 =
       [Msg.mk "error" "Error" "Failed to load ratings"]) ∧
    (loadRatingsCall (deliverRatingsErr st).1 slug true).2 =
      [Request.getRatings slug (st.ratingsPage * 10) 10] ∧
    (loadCommentsCall (deliverUserErr st).1 slug true).2 =
      [Request.getComments slug 0 10 CommentType.OFFICIAL,
       Request.getComments slug (st.userCommentsPage * 10) 10 CommentType.USER] := by
  refine ⟨?_, ?_, ?_, ?_, ?_⟩ <;>
    simp [deliverOfficialErr, deliverUserErr, deliverRatingsErr,
      loadRatingsCall, loadCommentsCall, hm]

/-- Witness for C7 at the initial state (where `hasMoreRatings` holds). -/
theorem c7_witness :
    (loadRatingsCall (deliverRatingsErr initState).1 "s" true).2 =
      [Request.getRatings "s" 0 10] ∧
    (deliverUserErr initState).1.userComments = initState.userComments :=
  ⟨(c7_error_leaves_feed_unchanged initState "s" rfl).2.2.2.1,
   ((c7_error_leaves_feed_unchanged initState "s" rfl).2.1).1⟩

end Compass
